import Mathlib

/-!
Verification of the autonomous deployment orchestrator
(`autonomous_deployer.py` and its collaborators `domain_management.py`,
`email_integration.py`).

The embedding models every external call (GitHub, git subprocesses, the
hosting platforms, GoDaddy, the e-mail providers, HTTP probes) through an
oracle (`World`, `DomainWorld`, `EmailWorld`, `PushWorld`) that fixes the
outcome of each call, including the possibility that the call raises an
exception (`PyResult.exn`).  Each operation returns, besides its result,
the trace of external effects it performed, so that claims about which
side effects happen (and with which arguments) can be stated and proved.
-/

/-- Outcome of a Python call: a normal return value or a raised exception
carrying the message of `str(e)`. -/
inductive PyResult (α : Type) where
  | ok (val : α)
  | exn (msg : String)
deriving DecidableEq, Repr

/-- Python truthiness of `credentials.get(name)`: the key must be present
and its value must be a non-empty string. -/
def truthy : Option String → Bool
  | none => false
  | some s => s != ""

/-- The credential mapping consumed by the deployer (absent keys are `none`,
distinct from the present-but-empty string). -/
structure Credentials where
  RENDER_API_KEY : Option String := none
  RAILWAY_TOKEN : Option String := none
  VERCEL_TOKEN : Option String := none
  GITHUB_TOKEN : Option String := none
  GODADDY_API_KEY : Option String := none
  GODADDY_SECRET : Option String := none
  MAILCHIMP_API_KEY : Option String := none
  MAILCHIMP_SERVER : Option String := none
  SENDGRID_API_KEY : Option String := none
  MAILGUN_API_KEY : Option String := none
  MAILGUN_DOMAIN : Option String := none
  OPENAI_API_KEY : Option String := none
  STRIPE_SECRET_KEY : Option String := none
  PRICE_ID : Option String := none
  TELEGRAM_BOT_TOKEN : Option String := none
  TELEGRAM_USER_ID : Option String := none
deriving DecidableEq, Repr

/-- The platform registry `self.platforms` of `AutonomousDeployer.__init__`:
one adapter per platform credential that is present, in the fixed insertion
order render, railway, vercel. -/
def platformIds (c : Credentials) : List String :=
  (if truthy c.RENDER_API_KEY then ["render"] else []) ++
  (if truthy c.RAILWAY_TOKEN then ["railway"] else []) ++
  (if truthy c.VERCEL_TOKEN then ["vercel"] else [])

/-- A single-quote character, used by the Python `repr` of a string list. -/
def singleQuote : String := String.mk [Char.ofNat 39]

/-- Python `str(list_of_strings)`, as interpolated into the
`not available. Available: ...` error message of `deploy_mvp`. -/
def pyListRepr (xs : List String) : String :=
  "[" ++ String.intercalate ", " (xs.map (fun s => singleQuote ++ s ++ singleQuote)) ++ "]"

/-- Python `str.title()` restricted to the single-word platform identifiers
used here: first character upper-cased, the rest lower-cased. -/
def pyTitle (s : String) : String :=
  match s.data with
  | [] => ""
  | ch :: cs => String.mk (ch.toUpper :: cs.map Char.toLower)

/-- Result dictionary of `GitHubAutomation.create_repository`. -/
structure RepoResult where
  success : Bool
  error : String := ""
  repo_url : String := ""
  clone_url : String := ""
deriving DecidableEq, Repr

/-- A `{success, error}` result dictionary, the shape shared by the push
helper and by the monitoring / CI / business-operations configurators. -/
structure OpResult where
  success : Bool
  error : String := ""
deriving DecidableEq, Repr

/-- Result dictionary of a platform adapter deployment call. -/
structure PlatformResult where
  success : Bool
  error : String := ""
  url : String := ""
  service_id : Option String := none
  deployment_id : Option String := none
deriving DecidableEq, Repr

/-- Result dictionary of `_verify_deployment`. -/
structure VerificationResult where
  health_check : Bool
  main_page : Bool
  overall_status : Bool
  error : Option String := none
deriving DecidableEq, Repr

/-- An HTTP response as far as the embedded code inspects it: the status
code, the response text (used in error messages) and the identifier the
SendGrid template-creation endpoint returns in its body. -/
structure HttpResponse where
  code : Nat
  text : String := ""
  body_id : String := ""
deriving DecidableEq, Repr

/-- Response body of the GoDaddy availability endpoint, as far as
`check_domain_availability` inspects it. -/
structure AvailabilityResponse where
  code : Nat
  available : Bool := false
  price : Nat := 0
  currency : String := "USD"
deriving DecidableEq, Repr

/-- Oracle for the three GoDaddy calls made by `DomainManager.setup_domain`. -/
structure DomainWorld where
  availResp : PyResult AvailabilityResponse
  regResp : PyResult HttpResponse
  dnsResp : PyResult HttpResponse
deriving DecidableEq, Repr

/-- Oracle for the provider call made by the chosen e-mail backend. -/
structure EmailWorld where
  mailchimpResp : PyResult HttpResponse
  sendgridResp : PyResult HttpResponse
  mailgunResp : PyResult HttpResponse
deriving DecidableEq, Repr

/-- Uniform shape of the result dictionaries returned by the domain
management operations. -/
structure DomainOpResult where
  success : Bool
  available : Bool := false
  price : Nat := 0
  currency : String := "USD"
  error : String := ""
  message : String := ""
deriving DecidableEq, Repr

/-- Uniform shape of the result dictionaries returned by the e-mail
configurator. -/
structure EmailOpResult where
  success : Bool
  service : String := ""
  error : String := ""
  message : String := ""
  template_id : Option String := none
  domain : String := ""
  server : String := ""
deriving DecidableEq, Repr

/-- External effects performed by the pipeline, with the arguments each
call receives.  `httpGet` records the URL and the timeout of a probe. -/
inductive Effect where
  | createRepo (name : String)
  | pushSource (mvpPath cloneUrl : String)
  | injectSecrets (repoName : String)
  | provision (platform repoUrl : String)
  | availabilityCheck (domain : String)
  | registerDomain (domain : String)
  | configureDNS (domain targetUrl : String)
  | setupMonitoring (appUrl repoName : String)
  | setupCICD (repoName platform : String)
  | setupEmail (appUrl repoName : String)
  | mailchimpCampaign (appUrl repoName : String)
  | sendgridTemplate (appUrl repoName : String)
  | mailgunStats (appUrl repoName : String)
  | setupBusinessOps (appUrl repoName : String)
  | httpGet (url : String) (timeout : Nat)
deriving DecidableEq, Repr

/-- `DomainManager.check_domain_availability`: GET the availability
endpoint; on HTTP 200 report the `available` flag, otherwise fail; an
exception is caught locally and converted to a failure dictionary. -/
def check_domain_availability (dw : DomainWorld) (domain : String) :
    DomainOpResult × List Effect :=
  ( match dw.availResp with
    | .exn m => { success := false, error := "Availability check failed: " ++ m }
    | .ok r =>
      if r.code == 200 then
        { success := true, available := r.available, price := r.price,
          currency := r.currency }
      else
        { success := false,
          error := "Domain availability check failed: " ++ toString r.code },
    [Effect.availabilityCheck domain] )

/-- `DomainManager.register_domain`: POST the purchase endpoint; success
on HTTP 200 or 201; exceptions caught locally. -/
def register_domain (dw : DomainWorld) (domain : String) :
    DomainOpResult × List Effect :=
  ( match dw.regResp with
    | .exn m => { success := false, error := "Domain registration failed: " ++ m }
    | .ok r =>
      if r.code == 200 || r.code == 201 then
        { success := true, message := "Domain registered successfully" }
      else
        { success := false,
          error := "Domain registration failed: " ++ toString r.code ++ " - " ++ r.text },
    [Effect.registerDomain domain] )

/-- `DomainManager.configure_dns`: PUT the DNS records; success on HTTP
200; exceptions caught locally. -/
def configure_dns (dw : DomainWorld) (domain targetUrl : String) :
    DomainOpResult × List Effect :=
  ( match dw.dnsResp with
    | .exn m => { success := false, error := "DNS configuration failed: " ++ m }
    | .ok r =>
      if r.code == 200 then
        { success := true, message := "DNS configured successfully" }
      else
        { success := false,
          error := "DNS configuration failed: " ++ toString r.code ++ " - " ++ r.text },
    [Effect.configureDNS domain targetUrl] )

/-- `DomainManager.setup_domain`: refuse without a GoDaddy key, otherwise
availability check, then registration only when the domain is reported
available, then DNS configuration; the first failing step is returned. -/
def setup_domain (c : Credentials) (dw : DomainWorld) (domain targetUrl : String) :
    DomainOpResult × List Effect :=
  if !(truthy c.GODADDY_API_KEY) then
    ({ success := false, error := "GoDaddy credentials not available" }, [])
  else
    let availability := check_domain_availability dw domain
    if !availability.1.success then availability
    else if availability.1.available then
      let registration := register_domain dw domain
      if !registration.1.success then (registration.1, availability.2 ++ registration.2)
      else
        let dns := configure_dns dw domain targetUrl
        (dns.1, availability.2 ++ registration.2 ++ dns.2)
    else
      let dns := configure_dns dw domain targetUrl
      (dns.1, availability.2 ++ dns.2)

/-- Python `credentials.get(name, default)`. -/
def getD (o : Option String) (d : String) : String := o.getD d

/-- `EmailService._setup_mailchimp_notifications`. -/
def setup_mailchimp_notifications (c : Credentials) (ew : EmailWorld)
    (appUrl repoName : String) : EmailOpResult × List Effect :=
  ( match ew.mailchimpResp with
    | .exn m => { success := false, error := "Mailchimp setup failed: " ++ m }
    | .ok r =>
      if r.code == 200 || r.code == 201 then
        { success := true, service := "mailchimp",
          server := getD c.MAILCHIMP_SERVER "us19",
          message := "Mailchimp notifications configured" }
      else
        { success := false,
          error := "Mailchimp setup failed: " ++ toString r.code ++ " - " ++ r.text },
    [Effect.mailchimpCampaign appUrl repoName] )

/-- `EmailService._setup_sendgrid_notifications`. -/
def setup_sendgrid_notifications (ew : EmailWorld)
    (appUrl repoName : String) : EmailOpResult × List Effect :=
  ( match ew.sendgridResp with
    | .exn m => { success := false, error := "SendGrid setup failed: " ++ m }
    | .ok r =>
      if r.code == 201 then
        { success := true, service := "sendgrid", template_id := some r.body_id,
          message := "SendGrid notifications configured" }
      else
        { success := false,
          error := "SendGrid template creation failed: " ++ toString r.code ++ " - " ++ r.text },
    [Effect.sendgridTemplate appUrl repoName] )

/-- `EmailService._setup_mailgun_notifications`. -/
def setup_mailgun_notifications (c : Credentials) (ew : EmailWorld)
    (appUrl repoName : String) : EmailOpResult × List Effect :=
  ( match ew.mailgunResp with
    | .exn m => { success := false, error := "Mailgun setup failed: " ++ m }
    | .ok r =>
      if r.code == 200 then
        { success := true, service := "mailgun",
          domain := getD c.MAILGUN_DOMAIN "sandbox.mailgun.org",
          message := "Mailgun notifications configured" }
      else
        { success := false, error := "Mailgun connection failed: " ++ toString r.code },
    [Effect.mailgunStats appUrl repoName] )

/-- `EmailService.setup_notifications`: pick the single active backend in
the fixed priority order Mailchimp, SendGrid, Mailgun, or fail when no
e-mail credential is present. -/
def setup_notifications (c : Credentials) (ew : EmailWorld)
    (appUrl repoName : String) : EmailOpResult × List Effect :=
  if truthy c.MAILCHIMP_API_KEY then
    setup_mailchimp_notifications c ew appUrl repoName
  else if truthy c.SENDGRID_API_KEY then
    setup_sendgrid_notifications ew appUrl repoName
  else if truthy c.MAILGUN_API_KEY then
    setup_mailgun_notifications c ew appUrl repoName
  else
    ({ success := false, error := "No email service credentials available" }, [])

/-- `AutonomousDeployer._verify_deployment`: GET `appURL/api/health` with
timeout 30, then GET `appURL` with timeout 30; each flag is HTTP 200 of
its probe; any exception is caught and yields the all-false dictionary
with the error message; note the root probe is not issued when the health
probe raises. -/
def verify_deployment (http : String → PyResult Nat) (appUrl : String) :
    VerificationResult × List Effect :=
  let healthUrl := appUrl ++ "/api/health"
  match http healthUrl with
  | .exn m =>
    ({ health_check := false, main_page := false, overall_status := false,
       error := some m }, [Effect.httpGet healthUrl 30])
  | .ok healthCode =>
    match http appUrl with
    | .exn m =>
      ({ health_check := false, main_page := false, overall_status := false,
         error := some m },
       [Effect.httpGet healthUrl 30, Effect.httpGet appUrl 30])
    | .ok mainCode =>
      ({ health_check := healthCode == 200, main_page := mainCode == 200,
         overall_status := (healthCode == 200) && (mainCode == 200) },
       [Effect.httpGet healthUrl 30, Effect.httpGet appUrl 30])

/-- `AutonomousDeployer._prepare_environment_variables`. -/
def prepare_environment_variables (c : Credentials) : List (String × String) :=
  [("OPENAI_API_KEY", getD c.OPENAI_API_KEY ""),
   ("STRIPE_SECRET_KEY", getD c.STRIPE_SECRET_KEY ""),
   ("SECRET_KEY", "ai-content-optimizer-secret-key-2025"),
   ("FLASK_ENV", "production"),
   ("PRICE_ID", getD c.PRICE_ID "price_1RcdcyEfbTvI2h4o4PVLTykg"),
   ("TELEGRAM_BOT_TOKEN", getD c.TELEGRAM_BOT_TOKEN ""),
   ("TELEGRAM_USER_ID", getD c.TELEGRAM_USER_ID "")]

/-- Oracle world for one `deploy_mvp` call: the clock value used for the
generated repository name, the outcome of every external collaborator
call and the HTTP responder used by the verification probes. -/
structure World where
  now : Nat
  repoResult : PyResult RepoResult
  pushResult : PyResult OpResult
  envResult : PyResult Bool
  deployResult : PyResult PlatformResult
  domainWorld : DomainWorld
  monitoringResult : PyResult OpResult
  cicdResult : PyResult OpResult
  emailWorld : EmailWorld
  businessResult : PyResult OpResult
  http : String → PyResult Nat

/-- Final deployment result dictionary of `deploy_mvp`. -/
structure DeploymentResult where
  success : Bool
  error : String := ""
  app_url : String := ""
  repo_url : String := ""
  platform : String := ""
  deployment_id : Option String := none
  verification : Option VerificationResult := none
  log : List String
  timestamp : Nat := 0
deriving DecidableEq, Repr

/-- Outcome of the `try` block of `deploy_mvp`: either a normal return, or
an exception escaping the block together with the log and the effects
accumulated up to the raise. -/
inductive BodyOutcome where
  | raised (msg : String) (log : List String) (effs : List Effect)
  | returned (res : DeploymentResult) (effs : List Effect)
deriving DecidableEq, Repr

/-- The body of the `try` block of `AutonomousDeployer.deploy_mvp`,
statement by statement: create the repository, push the files, inject the
secrets, check the platform registry, provision, optionally bind the
domain, run the four post-deploy configurators and the final
verification. -/
def deploy_body (c : Credentials) (w : World) (mvpPath platform : String)
    (customDomain : Option String) : BodyOutcome :=
  let log1 := ["🐙 Creating GitHub repository..."]
  let repoName := "ai-content-optimizer-" ++ toString w.now
  let effs1 := [Effect.createRepo repoName]
  match w.repoResult with
  | .exn m => .raised m log1 effs1
  | .ok repoResult =>
    if !repoResult.success then
      .returned { success := false,
                  error := "GitHub repository creation failed: " ++ repoResult.error,
                  log := log1 } effs1
    else
      let repoUrl := repoResult.repo_url
      let cloneUrl := repoResult.clone_url
      let log2 := log1 ++ ["✅ Repository created: " ++ repoUrl,
                           "📁 Pushing MVP files to repository..."]
      let effs2 := effs1 ++ [Effect.pushSource mvpPath cloneUrl]
      match w.pushResult with
      | .exn m => .raised m log2 effs2
      | .ok pushResult =>
        if !pushResult.success then
          .returned { success := false,
                      error := "File push failed: " ++ pushResult.error,
                      log := log2 } effs2
        else
          let log3 := log2 ++ ["✅ MVP files pushed successfully",
                               "🔐 Setting up environment variables..."]
          let effs3 := effs2 ++ [Effect.injectSecrets repoName]
          match w.envResult with
          | .exn m => .raised m log3 effs3
          | .ok envOk =>
            let log4 := log3 ++ [if envOk then "✅ Environment variables configured"
                                 else "⚠️ Environment variable setup had issues"]
            let log5 := log4 ++ ["🚀 Deploying to " ++ pyTitle platform ++ "..."]
            if !(platformIds c).contains platform then
              .returned { success := false,
                          error := "Platform " ++ platform ++ " not available. Available: " ++
                                   pyListRepr (platformIds c),
                          log := log5 } effs3
            else
              let effs4 := effs3 ++ [Effect.provision platform repoUrl]
              match w.deployResult with
              | .exn m => .raised m log5 effs4
              | .ok deployResult =>
                if !deployResult.success then
                  .returned { success := false,
                              error := pyTitle platform ++ " deployment failed: " ++
                                       deployResult.error,
                              log := log5 } effs4
                else
                  let log6 := log5 ++ ["✅ Deployed successfully to: " ++ deployResult.url]
                  let domStep :=
                    match customDomain with
                    | none => (log6, deployResult.url, ([] : List Effect))
                    | some domain =>
                      let logd := log6 ++ ["🌐 Setting up custom domain: " ++ domain]
                      let domainResult := setup_domain c w.domainWorld domain deployResult.url
                      if domainResult.1.success then
                        (logd ++ ["✅ Custom domain configured: https://" ++ domain],
                         "https://" ++ domain, domainResult.2)
                      else
                        (logd ++ ["⚠️ Domain setup failed: " ++ domainResult.1.error],
                         deployResult.url, domainResult.2)
                  let log7 := domStep.1
                  let appUrl := domStep.2.1
                  let effs5 := effs4 ++ domStep.2.2
                  let log8 := log7 ++ ["📊 Setting up monitoring..."]
                  let effs6 := effs5 ++ [Effect.setupMonitoring appUrl repoName]
                  match w.monitoringResult with
                  | .exn m => .raised m log8 effs6
                  | .ok monitoringResult =>
                    let log9 := log8 ++
                      [if monitoringResult.success then "✅ Monitoring configured"
                       else "⚠️ Monitoring setup failed: " ++ monitoringResult.error]
                    let log10 := log9 ++ ["⚙️ Setting up CI/CD pipeline..."]
                    let effs7 := effs6 ++ [Effect.setupCICD repoName platform]
                    match w.cicdResult with
                    | .exn m => .raised m log10 effs7
                    | .ok cicdResult =>
                      let log11 := log10 ++
                        [if cicdResult.success then "✅ CI/CD pipeline configured"
                         else "⚠️ CI/CD setup failed: " ++ cicdResult.error]
                      let log12 := log11 ++ ["📧 Setting up email services..."]
                      let emailStep := setup_notifications c w.emailWorld appUrl repoName
                      let effs8 := effs7 ++ [Effect.setupEmail appUrl repoName] ++ emailStep.2
                      let log13 := log12 ++
                        [if emailStep.1.success then "✅ Email services configured"
                         else "⚠️ Email setup failed: " ++ emailStep.1.error]
                      let log14 := log13 ++ ["📋 Setting up business operations..."]
                      let effs9 := effs8 ++ [Effect.setupBusinessOps appUrl repoName]
                      match w.businessResult with
                      | .exn m => .raised m log14 effs9
                      | .ok businessResult =>
                        let log15 := log14 ++
                          [if businessResult.success then "✅ Business operations configured"
                           else "⚠️ Business operations setup failed: " ++ businessResult.error]
                        let log16 := log15 ++ ["🔍 Running final verification..."]
                        let verifyStep := verify_deployment w.http appUrl
                        .returned
                          { success := true,
                            app_url := appUrl,
                            repo_url := repoUrl,
                            platform := platform,
                            deployment_id :=
                              match deployResult.service_id with
                              | some s => some s
                              | none => deployResult.deployment_id,
                            verification := some verifyStep.1,
                            log := log16,
                            timestamp := w.now }
                          (effs9 ++ verifyStep.2)

/-- `AutonomousDeployer.deploy_mvp`: the `try` body wrapped in the
outermost `except Exception` handler, which appends the failure line to
the accumulated log and returns `{success: False, error, log}`. -/
def deploy_mvp (c : Credentials) (w : World) (mvpPath platform : String)
    (customDomain : Option String) : DeploymentResult × List Effect :=
  match deploy_body c w mvpPath platform customDomain with
  | .returned res effs => (res, effs)
  | .raised m log effs =>
    ({ success := false, error := m,
       log := log ++ ["❌ Deployment failed: " ++ m] }, effs)

/-- Filesystem and subprocess effects performed by `_push_mvp_files`.
`rmtree` is the effect a workspace cleanup would produce; the source never
performs it. -/
inductive FsEffect where
  | makedirs (path : String)
  | gitClone (url path : String)
  | copyItem (name dest : String)
  | chdir (path : String)
  | gitAdd
  | gitCommit
  | gitPush
  | rmtree (path : String)
deriving DecidableEq, Repr

/-- Oracle for one `_push_mvp_files` call: which of the fallible steps
succeed, the working directory of the caller, and the basenames that
`glob` finds under the MVP path. -/
structure PushWorld where
  cloneOk : Bool
  copyOk : Bool
  addOk : Bool
  commitOk : Bool
  pushOk : Bool
  originalCwd : String
  items : List String
deriving DecidableEq, Repr

/-- The temporary workspace name `f"/tmp/deploy_{int(time.time())}"`:
derived from the whole-second clock value only. -/
def temp_dir_name (now : Nat) : String := "/tmp/deploy_" ++ toString now

/-- `AutonomousDeployer._push_mvp_files`: make the temp directory, clone,
copy the bundle entries, chdir into the workspace, add/commit/push with
the working directory restored by the `finally`, and report
`{success, error}`; any failing subprocess step aborts with an error.
Returns the result, the effect trace and the final working directory. -/
def push_mvp_files (now : Nat) (pw : PushWorld) (mvpPath cloneUrl : String) :
    OpResult × List FsEffect × String :=
  let tempDir := temp_dir_name now
  let e1 := [FsEffect.makedirs tempDir, FsEffect.gitClone cloneUrl tempDir]
  if !pw.cloneOk then
    ({ success := false, error := "Git operation failed: git clone" }, e1, pw.originalCwd)
  else
    let e2 := e1 ++ pw.items.map (fun item =>
      FsEffect.copyItem (mvpPath ++ "/" ++ item) (tempDir ++ "/" ++ item))
    if !pw.copyOk then
      ({ success := false, error := "copy failed" }, e2, pw.originalCwd)
    else
      let e3 := e2 ++ [FsEffect.chdir tempDir, FsEffect.gitAdd]
      if !pw.addOk then
        ({ success := false, error := "Git operation failed: git add" },
         e3 ++ [FsEffect.chdir pw.originalCwd], pw.originalCwd)
      else
        let e4 := e3 ++ [FsEffect.gitCommit]
        if !pw.commitOk then
          ({ success := false, error := "Git operation failed: git commit" },
           e4 ++ [FsEffect.chdir pw.originalCwd], pw.originalCwd)
        else
          let e5 := e4 ++ [FsEffect.gitPush]
          if !pw.pushOk then
            ({ success := false, error := "Git operation failed: git push" },
             e5 ++ [FsEffect.chdir pw.originalCwd], pw.originalCwd)
          else
            ({ success := true }, e5 ++ [FsEffect.chdir pw.originalCwd], pw.originalCwd)

/-- Concrete credential map used by several witnesses: only the Railway
platform credential is present, so the adapter registry is exactly
`["railway"]`, and no GoDaddy or e-mail provider key is available. -/
def railwayCreds : Credentials := { RAILWAY_TOKEN := some "railway-token" }

/-- Concrete successful repository-creation result used by witnesses. -/
def okRepoResult : RepoResult :=
  { success := true, repo_url := "https://github.com/acme/app",
    clone_url := "https://github.com/acme/app.git" }

/-- Concrete successful platform provisioning result used by witnesses. -/
def okPlatformResult : PlatformResult :=
  { success := true, url := "https://app.up.railway.app", service_id := some "svc-1" }

/-- Oracle world in which every external call succeeds. -/
def happyWorld : World :=
  { now := 1700000000,
    repoResult := .ok okRepoResult,
    pushResult := .ok { success := true },
    envResult := .ok true,
    deployResult := .ok okPlatformResult,
    domainWorld := { availResp := .ok { code := 200, available := false },
                     regResp := .ok { code := 201 },
                     dnsResp := .ok { code := 200 } },
    monitoringResult := .ok { success := true },
    cicdResult := .ok { success := true },
    emailWorld := { mailchimpResp := .ok { code := 200 },
                    sendgridResp := .ok { code := 201 },
                    mailgunResp := .ok { code := 200 } },
    businessResult := .ok { success := true },
    http := fun _ => .ok 200 }

/-- Concrete credential map with railway and GoDaddy keys, used by the
domain-management witnesses. -/
def godaddyCreds : Credentials :=
  { RAILWAY_TOKEN := some "railway-token",
    GODADDY_API_KEY := some "gd-key", GODADDY_SECRET := some "gd-secret" }

/-- Concrete GoDaddy oracle whose availability endpoint answers HTTP 500,
so the availability check — the first of the three domain steps — fails. -/
def availFailDw : DomainWorld :=
  { availResp := .ok { code := 500 }, regResp := .ok { code := 201 },
    dnsResp := .ok { code := 200 } }

/-- Claim C1, counterexample: with credentials for railway only and every
earlier call succeeding, requesting the unregistered platform vercel does
return `success=false`, but only after the repository has been created and
the source files pushed — both effects are in the trace — and the log has
seven entries, not the claimed zero-or-minimal pre-repo length.  The
platform check is therefore not a pre-execution check. -/
theorem C1_platform_check_not_preexecution_cex :
    (deploy_mvp railwayCreds happyWorld "/tmp/mvp" "vercel" none).1.success = false ∧
    Effect.createRepo "ai-content-optimizer-1700000000" ∈
      (deploy_mvp railwayCreds happyWorld "/tmp/mvp" "vercel" none).2 ∧
    Effect.pushSource "/tmp/mvp" "https://github.com/acme/app.git" ∈
      (deploy_mvp railwayCreds happyWorld "/tmp/mvp" "vercel" none).2 ∧
    (deploy_mvp railwayCreds happyWorld "/tmp/mvp" "vercel" none).1.log.length = 7 := by
  decide

/-- Claim C1, amended: requesting an unregistered platformID is a fatal
error, but it is detected only after repository creation, source push and
secret injection; when those earlier stages succeed, `deploy_mvp` returns
`success=false` with the error `Platform Y not available. Available: [..]`,
the effect trace shows the repository was created and the files pushed
before the error, and the log has the seven entries of the earlier
stages. -/
theorem C1_amended_late_platform_check (c : Credentials) (now : Nat)
    (r : RepoResult) (p : OpResult) (envOk : Bool) (depR : PyResult PlatformResult)
    (dw : DomainWorld) (monR cicR busR : PyResult OpResult) (ew : EmailWorld)
    (http : String → PyResult Nat) (mvpPath platform : String)
    (customDomain : Option String)
    (hr : r.success = true) (hp : p.success = true)
    (hplat : platform ∉ platformIds c) :
    (deploy_mvp c { now := now, repoResult := .ok r, pushResult := .ok p,
                    envResult := .ok envOk, deployResult := depR, domainWorld := dw,
                    monitoringResult := monR, cicdResult := cicR, emailWorld := ew,
                    businessResult := busR, http := http }
        mvpPath platform customDomain).1.success = false ∧
    (deploy_mvp c { now := now, repoResult := .ok r, pushResult := .ok p,
                    envResult := .ok envOk, deployResult := depR, domainWorld := dw,
                    monitoringResult := monR, cicdResult := cicR, emailWorld := ew,
                    businessResult := busR, http := http }
        mvpPath platform customDomain).1.error =
      "Platform " ++ platform ++ " not available. Available: " ++ pyListRepr (platformIds c) ∧
    (deploy_mvp c { now := now, repoResult := .ok r, pushResult := .ok p,
                    envResult := .ok envOk, deployResult := depR, domainWorld := dw,
                    monitoringResult := monR, cicdResult := cicR, emailWorld := ew,
                    businessResult := busR, http := http }
        mvpPath platform customDomain).2 =
      [Effect.createRepo ("ai-content-optimizer-" ++ toString now),
       Effect.pushSource mvpPath r.clone_url,
       Effect.injectSecrets ("ai-content-optimizer-" ++ toString now)] ∧
    (deploy_mvp c { now := now, repoResult := .ok r, pushResult := .ok p,
                    envResult := .ok envOk, deployResult := depR, domainWorld := dw,
                    monitoringResult := monR, cicdResult := cicR, emailWorld := ew,
                    businessResult := busR, http := http }
        mvpPath platform customDomain).1.log.length = 7 := by
  refine ⟨?_, ?_, ?_, ?_⟩ <;> simp [deploy_mvp, deploy_body, hr, hp, hplat]

/-- Witness for the amended C1 theorem at a concrete input. -/
theorem C1_amended_late_platform_check_witness :
    okRepoResult.success = true ∧
    (deploy_mvp railwayCreds happyWorld "/tmp/mvp" "vercel" none).1.error =
      "Platform " ++ "vercel" ++ " not available. Available: " ++
        pyListRepr (platformIds railwayCreds) :=
  ⟨rfl, (C1_amended_late_platform_check railwayCreds 1700000000 okRepoResult
      { success := true } true (.ok okPlatformResult) happyWorld.domainWorld
      (.ok { success := true }) (.ok { success := true }) (.ok { success := true })
      happyWorld.emailWorld (fun _ => .ok 200) "/tmp/mvp" "vercel" none
      rfl rfl (by decide)).2.1⟩

/-- Claim C2: when the earlier stages succeed and the requested platformID
is not in the registry, `deploy_mvp` returns `success=false` with an error
enumerating the registered platform IDs, and the external-call trace
contains exactly the three stages before platform selection — repository
creation, source push, secret injection — and no later stage. -/
theorem C2_unregistered_platform_stage_log (c : Credentials) (now : Nat)
    (r : RepoResult) (p : OpResult) (envOk : Bool) (depR : PyResult PlatformResult)
    (dw : DomainWorld) (monR cicR busR : PyResult OpResult) (ew : EmailWorld)
    (http : String → PyResult Nat) (mvpPath platform : String)
    (customDomain : Option String)
    (hr : r.success = true) (hp : p.success = true)
    (hplat : platform ∉ platformIds c) :
    deploy_mvp c { now := now, repoResult := .ok r, pushResult := .ok p,
                   envResult := .ok envOk, deployResult := depR, domainWorld := dw,
                   monitoringResult := monR, cicdResult := cicR, emailWorld := ew,
                   businessResult := busR, http := http }
      mvpPath platform customDomain =
      ({ success := false,
         error := "Platform " ++ platform ++ " not available. Available: " ++
                  pyListRepr (platformIds c),
         log := ["🐙 Creating GitHub repository...",
                 "✅ Repository created: " ++ r.repo_url,
                 "📁 Pushing MVP files to repository...",
                 "✅ MVP files pushed successfully",
                 "🔐 Setting up environment variables...",
                 (if envOk then "✅ Environment variables configured"
                  else "⚠️ Environment variable setup had issues"),
                 "🚀 Deploying to " ++ pyTitle platform ++ "..."] },
       [Effect.createRepo ("ai-content-optimizer-" ++ toString now),
        Effect.pushSource mvpPath r.clone_url,
        Effect.injectSecrets ("ai-content-optimizer-" ++ toString now)]) := by
  simp [deploy_mvp, deploy_body, hr, hp, hplat]

/-- Witness for C2 at a concrete input: registry `["railway"]`, requested
platform vercel. -/
theorem C2_unregistered_platform_stage_log_witness :
    okRepoResult.success = true ∧
    deploy_mvp railwayCreds happyWorld "/tmp/mvp" "vercel" none =
      ({ success := false,
         error := "Platform " ++ "vercel" ++ " not available. Available: " ++
                  pyListRepr (platformIds railwayCreds),
         log := ["🐙 Creating GitHub repository...",
                 "✅ Repository created: " ++ okRepoResult.repo_url,
                 "📁 Pushing MVP files to repository...",
                 "✅ MVP files pushed successfully",
                 "🔐 Setting up environment variables...",
                 (if true then "✅ Environment variables configured"
                  else "⚠️ Environment variable setup had issues"),
                 "🚀 Deploying to " ++ pyTitle "vercel" ++ "..."] },
       [Effect.createRepo ("ai-content-optimizer-" ++ toString 1700000000),
        Effect.pushSource "/tmp/mvp" okRepoResult.clone_url,
        Effect.injectSecrets ("ai-content-optimizer-" ++ toString 1700000000)]) :=
  ⟨rfl, C2_unregistered_platform_stage_log railwayCreds 1700000000 okRepoResult
      { success := true } true (.ok okPlatformResult) happyWorld.domainWorld
      (.ok { success := true }) (.ok { success := true }) (.ok { success := true })
      happyWorld.emailWorld (fun _ => .ok 200) "/tmp/mvp" "vercel" none
      rfl rfl (by decide)⟩

/-- Claim C3: `deploy_mvp` never lets an exception escape.  Whenever the
`try` body raises — at any point, with whatever log and effects have
accumulated — the outermost handler converts the exception into a
`success=false` result whose error is the exception message and whose log
is the accumulated log plus the final failure line. -/
theorem C3_no_raw_exception_escape (c : Credentials) (w : World)
    (mvpPath platform : String) (customDomain : Option String)
    (m : String) (log : List String) (effs : List Effect)
    (h : deploy_body c w mvpPath platform customDomain = .raised m log effs) :
    deploy_mvp c w mvpPath platform customDomain =
      ({ success := false, error := m,
         log := log ++ ["❌ Deployment failed: " ++ m] }, effs) := by
  simp [deploy_mvp, h]

/-- Witness for C3 at a concrete input: the secret-injection call raises
after repository creation and push succeeded; the result carries the five
accumulated log lines plus the failure line. -/
theorem C3_no_raw_exception_escape_witness :
    deploy_body railwayCreds { happyWorld with envResult := .exn "GitHub API timeout" }
        "/tmp/mvp" "railway" none =
      .raised "GitHub API timeout"
        ["🐙 Creating GitHub repository...",
         "✅ Repository created: https://github.com/acme/app",
         "📁 Pushing MVP files to repository...",
         "✅ MVP files pushed successfully",
         "🔐 Setting up environment variables..."]
        [Effect.createRepo "ai-content-optimizer-1700000000",
         Effect.pushSource "/tmp/mvp" "https://github.com/acme/app.git",
         Effect.injectSecrets "ai-content-optimizer-1700000000"] ∧
    deploy_mvp railwayCreds { happyWorld with envResult := .exn "GitHub API timeout" }
        "/tmp/mvp" "railway" none =
      ({ success := false, error := "GitHub API timeout",
         log := ["🐙 Creating GitHub repository...",
                 "✅ Repository created: https://github.com/acme/app",
                 "📁 Pushing MVP files to repository...",
                 "✅ MVP files pushed successfully",
                 "🔐 Setting up environment variables..."] ++
                ["❌ Deployment failed: " ++ "GitHub API timeout"] },
       [Effect.createRepo "ai-content-optimizer-1700000000",
        Effect.pushSource "/tmp/mvp" "https://github.com/acme/app.git",
        Effect.injectSecrets "ai-content-optimizer-1700000000"]) :=
  ⟨by decide,
   C3_no_raw_exception_escape railwayCreds
     { happyWorld with envResult := .exn "GitHub API timeout" }
     "/tmp/mvp" "railway" none "GitHub API timeout" _ _ (by decide)⟩

/-- Claim C4: when repository creation returns a failure, `deploy_mvp`
halts with `success=false`, the error message embeds the phrase
`repository creation failed`, the log has exactly the one entry of the
first stage, and the only external effect is the repository creation call
itself — no push, no secret injection, no provisioning. -/
theorem C4_repo_creation_failure_halts (c : Credentials) (now : Nat) (r : RepoResult)
    (pushR : PyResult OpResult) (envR : PyResult Bool) (depR : PyResult PlatformResult)
    (dw : DomainWorld) (monR cicR busR : PyResult OpResult) (ew : EmailWorld)
    (http : String → PyResult Nat) (mvpPath platform : String)
    (customDomain : Option String)
    (hr : r.success = false) :
    deploy_mvp c { now := now, repoResult := .ok r, pushResult := pushR, envResult := envR,
                   deployResult := depR, domainWorld := dw, monitoringResult := monR,
                   cicdResult := cicR, emailWorld := ew, businessResult := busR,
                   http := http }
      mvpPath platform customDomain =
      ({ success := false,
         error := "GitHub repository creation failed: " ++ r.error,
         log := ["🐙 Creating GitHub repository..."] },
       [Effect.createRepo ("ai-content-optimizer-" ++ toString now)]) := by
  simp [deploy_mvp, deploy_body, hr]

/-- Witness for C4 at a concrete input: the provider rejects the creation
call with a rate-limit error. -/
theorem C4_repo_creation_failure_halts_witness :
    (({ success := false, error := "API rate limit exceeded" } : RepoResult)).success = false ∧
    deploy_mvp railwayCreds
      { happyWorld with repoResult := .ok { success := false, error := "API rate limit exceeded" } }
      "/tmp/mvp" "railway" none =
      ({ success := false,
         error := "GitHub repository creation failed: " ++ "API rate limit exceeded",
         log := ["🐙 Creating GitHub repository..."] },
       [Effect.createRepo ("ai-content-optimizer-" ++ toString 1700000000)]) :=
  ⟨rfl, C4_repo_creation_failure_halts railwayCreds 1700000000
     { success := false, error := "API rate limit exceeded" }
     (.ok { success := true }) (.ok true) (.ok okPlatformResult) happyWorld.domainWorld
     (.ok { success := true }) (.ok { success := true }) (.ok { success := true })
     happyWorld.emailWorld (fun _ => .ok 200) "/tmp/mvp" "railway" none rfl⟩

/-- Claim C5: when repository creation, push and provisioning succeed but
every post-deploy step fails — secret injection reports issues, domain
binding fails (no GoDaddy key), monitoring, CI, e-mail (no provider key)
and business operations all fail — `deploy_mvp` still returns
`success=true` with the platform URL as `app_url`, the error field empty,
and one degraded warning line per failed step in the log, with no fatal
entry. -/
theorem C5_post_deploy_failures_degraded (c : Credentials) (now : Nat)
    (r : RepoResult) (p : OpResult) (d : PlatformResult) (dw : DomainWorld)
    (mres cres bres : OpResult) (ew : EmailWorld) (http : String → PyResult Nat)
    (mvpPath platform domain : String)
    (hr : r.success = true) (hp : p.success = true) (hd : d.success = true)
    (hm : mres.success = false) (hcic : cres.success = false) (hb : bres.success = false)
    (hplat : platform ∈ platformIds c)
    (hg : truthy c.GODADDY_API_KEY = false)
    (hmc : truthy c.MAILCHIMP_API_KEY = false)
    (hsg : truthy c.SENDGRID_API_KEY = false)
    (hmg : truthy c.MAILGUN_API_KEY = false) :
    deploy_mvp c { now := now, repoResult := .ok r, pushResult := .ok p,
                   envResult := .ok false, deployResult := .ok d, domainWorld := dw,
                   monitoringResult := .ok mres, cicdResult := .ok cres,
                   emailWorld := ew, businessResult := .ok bres, http := http }
      mvpPath platform (some domain) =
      ({ success := true,
         app_url := d.url,
         repo_url := r.repo_url,
         platform := platform,
         deployment_id := match d.service_id with
                          | some s => some s
                          | none => d.deployment_id,
         verification := some (verify_deployment http d.url).1,
         log := ["🐙 Creating GitHub repository...",
                 "✅ Repository created: " ++ r.repo_url,
                 "📁 Pushing MVP files to repository...",
                 "✅ MVP files pushed successfully",
                 "🔐 Setting up environment variables...",
                 "⚠️ Environment variable setup had issues",
                 "🚀 Deploying to " ++ pyTitle platform ++ "...",
                 "✅ Deployed successfully to: " ++ d.url,
                 "🌐 Setting up custom domain: " ++ domain,
                 "⚠️ Domain setup failed: " ++ "GoDaddy credentials not available",
                 "📊 Setting up monitoring...",
                 "⚠️ Monitoring setup failed: " ++ mres.error,
                 "⚙️ Setting up CI/CD pipeline...",
                 "⚠️ CI/CD setup failed: " ++ cres.error,
                 "📧 Setting up email services...",
                 "⚠️ Email setup failed: " ++ "No email service credentials available",
                 "📋 Setting up business operations...",
                 "⚠️ Business operations setup failed: " ++ bres.error,
                 "🔍 Running final verification..."],
         timestamp := now },
       [Effect.createRepo ("ai-content-optimizer-" ++ toString now),
        Effect.pushSource mvpPath r.clone_url,
        Effect.injectSecrets ("ai-content-optimizer-" ++ toString now),
        Effect.provision platform r.repo_url,
        Effect.setupMonitoring d.url ("ai-content-optimizer-" ++ toString now),
        Effect.setupCICD ("ai-content-optimizer-" ++ toString now) platform,
        Effect.setupEmail d.url ("ai-content-optimizer-" ++ toString now),
        Effect.setupBusinessOps d.url ("ai-content-optimizer-" ++ toString now)] ++
       (verify_deployment http d.url).2) := by
  simp [deploy_mvp, deploy_body, setup_domain, setup_notifications,
        hr, hp, hd, hm, hcic, hb, hplat, hg, hmc, hsg, hmg]

/-- Witness for C5 at a concrete input: railway credentials only, every
post-deploy configurator failing. -/
theorem C5_post_deploy_failures_degraded_witness :
    truthy railwayCreds.GODADDY_API_KEY = false ∧
    (deploy_mvp railwayCreds
        { now := 1700000000, repoResult := .ok okRepoResult,
          pushResult := .ok { success := true }, envResult := .ok false,
          deployResult := .ok okPlatformResult, domainWorld := happyWorld.domainWorld,
          monitoringResult := .ok { success := false, error := "monitoring down" },
          cicdResult := .ok { success := false, error := "ci down" },
          emailWorld := happyWorld.emailWorld,
          businessResult := .ok { success := false, error := "biz down" },
          http := fun _ => PyResult.ok 200 }
        "/tmp/mvp" "railway" (some "shop.example.com")).1.success = true ∧
    (deploy_mvp railwayCreds
        { now := 1700000000, repoResult := .ok okRepoResult,
          pushResult := .ok { success := true }, envResult := .ok false,
          deployResult := .ok okPlatformResult, domainWorld := happyWorld.domainWorld,
          monitoringResult := .ok { success := false, error := "monitoring down" },
          cicdResult := .ok { success := false, error := "ci down" },
          emailWorld := happyWorld.emailWorld,
          businessResult := .ok { success := false, error := "biz down" },
          http := fun _ => PyResult.ok 200 }
        "/tmp/mvp" "railway" (some "shop.example.com")).1.app_url =
      "https://app.up.railway.app" := by
  have h := C5_post_deploy_failures_degraded railwayCreds 1700000000 okRepoResult
    { success := true } okPlatformResult happyWorld.domainWorld
    { success := false, error := "monitoring down" }
    { success := false, error := "ci down" }
    { success := false, error := "biz down" }
    happyWorld.emailWorld (fun _ => PyResult.ok 200) "/tmp/mvp" "railway"
    "shop.example.com" rfl rfl rfl rfl rfl rfl (by decide) rfl rfl rfl rfl
  exact ⟨rfl, by rw [h], by rw [h]; rfl⟩

/-- Claim C6, counterexample: when the health probe raises a transport
error, the verifier issues only one GET — the root probe is skipped — so
the claim that every call issues exactly two GET probes is false. -/
theorem C6_exactly_two_probes_cex :
    ((verify_deployment (fun _ => PyResult.exn "connection timed out")
        "https://app.example").2).length ≠ 2 := by
  decide

/-- Claim C6, amended: the verifier issues at most two GET probes, each
with a 30-unit timeout — the health path under appURL first, then appURL
itself, the second only when the first does not raise; `overall_status` is
true iff both probes return HTTP 200; a raised timeout or transport error
on either probe yields the all-false flags with the error field populated,
without raising; and the verification outcome never changes the success
field of the deployment result. -/
theorem C6_amended_probe_semantics (http : String → PyResult Nat) (u : String) :
    (∀ m, http (u ++ "/api/health") = .exn m →
       (verify_deployment http u).2 = [Effect.httpGet (u ++ "/api/health") 30]) ∧
    (∀ n, http (u ++ "/api/health") = .ok n →
       (verify_deployment http u).2 =
         [Effect.httpGet (u ++ "/api/health") 30, Effect.httpGet u 30]) ∧
    ((verify_deployment http u).1.overall_status = true ↔
       (http (u ++ "/api/health") = .ok 200 ∧ http u = .ok 200)) ∧
    (∀ m, http (u ++ "/api/health") = .exn m →
       (verify_deployment http u).1 =
         { health_check := false, main_page := false, overall_status := false,
           error := some m }) ∧
    (∀ n m, http (u ++ "/api/health") = .ok n → http u = .exn m →
       (verify_deployment http u).1 =
         { health_check := false, main_page := false, overall_status := false,
           error := some m }) ∧
    (∀ http2 : String → PyResult Nat,
       (deploy_mvp railwayCreds { happyWorld with http := http2 }
           "/tmp/mvp" "railway" none).1.success = true) := by
  refine ⟨?_, ?_, ?_, ?_, ?_, ?_⟩
  · intro m hm
    simp [verify_deployment, hm]
  · intro n hn
    cases h2 : http u <;> simp [verify_deployment, hn, h2]
  · cases h1 : http (u ++ "/api/health") <;> cases h2 : http u <;>
      simp [verify_deployment, h1, h2, and_comm]
  · intro m hm
    simp [verify_deployment, hm]
  · intro n m hn hm2
    simp [verify_deployment, hn, hm2]
  · intro http2
    simp [deploy_mvp, deploy_body, happyWorld, okRepoResult, okPlatformResult,
          railwayCreds, platformIds, truthy]

/-- Witness for the amended C6 theorem at a concrete responder. -/
theorem C6_amended_probe_semantics_witness :
    (verify_deployment (fun _ => PyResult.ok 200) "https://app.example").1.overall_status = true ↔
      ((fun _ => PyResult.ok 200) ("https://app.example" ++ "/api/health") = PyResult.ok 200 ∧
       (fun _ => PyResult.ok 200) "https://app.example" = PyResult.ok 200) :=
  (C6_amended_probe_semantics (fun _ => PyResult.ok 200) "https://app.example").2.2.1

/-- The availability check always performs exactly its one GET effect. -/
theorem check_domain_availability_effects (dw : DomainWorld) (domain : String) :
    (check_domain_availability dw domain).2 = [Effect.availabilityCheck domain] := rfl

/-- The registration step always performs exactly its one POST effect. -/
theorem register_domain_effects (dw : DomainWorld) (domain : String) :
    (register_domain dw domain).2 = [Effect.registerDomain domain] := rfl

/-- The DNS step always performs exactly its one PUT effect. -/
theorem configure_dns_effects (dw : DomainWorld) (domain targetUrl : String) :
    (configure_dns dw domain targetUrl).2 = [Effect.configureDNS domain targetUrl] := rfl

/-- Claim C7: with a GoDaddy key present, `setup_domain` runs the
three-step sub-sequence — the availability check always comes first,
registration is attempted iff the check succeeded and reported the domain
available, and DNS configuration is attempted iff the check succeeded and
registration (when attempted) succeeded.  When the configurator fails and
the pipeline otherwise reaches it, `deploy_mvp` still returns
`success=true`, keeps the platform URL as `app_url`, and records the
failure as a degraded log entry. -/
theorem C7_domain_three_step_degraded (c : Credentials) (now : Nat)
    (r : RepoResult) (p : OpResult) (envOk : Bool) (d : PlatformResult) (dw : DomainWorld)
    (mres cres bres : OpResult) (ew : EmailWorld) (http : String → PyResult Nat)
    (mvpPath platform domain : String)
    (hr : r.success = true) (hp : p.success = true) (hd : d.success = true)
    (hplat : platform ∈ platformIds c)
    (hg : truthy c.GODADDY_API_KEY = true)
    (hfail : (setup_domain c dw domain d.url).1.success = false) :
    (setup_domain c dw domain d.url).2.head? = some (Effect.availabilityCheck domain) ∧
    (Effect.registerDomain domain ∈ (setup_domain c dw domain d.url).2 ↔
      ((check_domain_availability dw domain).1.success = true ∧
       (check_domain_availability dw domain).1.available = true)) ∧
    (Effect.configureDNS domain d.url ∈ (setup_domain c dw domain d.url).2 ↔
      ((check_domain_availability dw domain).1.success = true ∧
       ((check_domain_availability dw domain).1.available = true →
        (register_domain dw domain).1.success = true))) ∧
    (deploy_mvp c { now := now, repoResult := .ok r, pushResult := .ok p,
                    envResult := .ok envOk, deployResult := .ok d, domainWorld := dw,
                    monitoringResult := .ok mres, cicdResult := .ok cres,
                    emailWorld := ew, businessResult := .ok bres, http := http }
        mvpPath platform (some domain)).1.success = true ∧
    (deploy_mvp c { now := now, repoResult := .ok r, pushResult := .ok p,
                    envResult := .ok envOk, deployResult := .ok d, domainWorld := dw,
                    monitoringResult := .ok mres, cicdResult := .ok cres,
                    emailWorld := ew, businessResult := .ok bres, http := http }
        mvpPath platform (some domain)).1.app_url = d.url ∧
    ("⚠️ Domain setup failed: " ++ (setup_domain c dw domain d.url).1.error) ∈
      (deploy_mvp c { now := now, repoResult := .ok r, pushResult := .ok p,
                      envResult := .ok envOk, deployResult := .ok d, domainWorld := dw,
                      monitoringResult := .ok mres, cicdResult := .ok cres,
                      emailWorld := ew, businessResult := .ok bres, http := http }
          mvpPath platform (some domain)).1.log := by
  refine ⟨?_, ?_, ?_, ?_, ?_, ?_⟩
  · cases ha : (check_domain_availability dw domain).1.success <;>
      cases hav : (check_domain_availability dw domain).1.available <;>
      cases hreg : (register_domain dw domain).1.success <;>
      simp [setup_domain, hg, ha, hav, hreg, check_domain_availability_effects,
            register_domain_effects, configure_dns_effects]
  · cases ha : (check_domain_availability dw domain).1.success <;>
      cases hav : (check_domain_availability dw domain).1.available <;>
      cases hreg : (register_domain dw domain).1.success <;>
      simp [setup_domain, hg, ha, hav, hreg, check_domain_availability_effects,
            register_domain_effects, configure_dns_effects]
  · cases ha : (check_domain_availability dw domain).1.success <;>
      cases hav : (check_domain_availability dw domain).1.available <;>
      cases hreg : (register_domain dw domain).1.success <;>
      simp [setup_domain, hg, ha, hav, hreg, check_domain_availability_effects,
            register_domain_effects, configure_dns_effects]
  · simp [deploy_mvp, deploy_body, hr, hp, hd, hplat, hfail]
  · simp [deploy_mvp, deploy_body, hr, hp, hd, hplat, hfail]
  · simp [deploy_mvp, deploy_body, hr, hp, hd, hplat, hfail]

/-- Witness for C7 at a concrete input: the availability check answers
HTTP 500, so the domain configurator fails at its first step. -/
theorem C7_domain_three_step_degraded_witness :
    truthy godaddyCreds.GODADDY_API_KEY = true ∧
    (deploy_mvp godaddyCreds
        { now := 1700000000, repoResult := .ok okRepoResult,
          pushResult := .ok { success := true }, envResult := .ok true,
          deployResult := .ok okPlatformResult, domainWorld := availFailDw,
          monitoringResult := .ok { success := true }, cicdResult := .ok { success := true },
          emailWorld := happyWorld.emailWorld, businessResult := .ok { success := true },
          http := fun _ => PyResult.ok 200 }
        "/tmp/mvp" "railway" (some "shop.example.com")).1.success = true ∧
    (deploy_mvp godaddyCreds
        { now := 1700000000, repoResult := .ok okRepoResult,
          pushResult := .ok { success := true }, envResult := .ok true,
          deployResult := .ok okPlatformResult, domainWorld := availFailDw,
          monitoringResult := .ok { success := true }, cicdResult := .ok { success := true },
          emailWorld := happyWorld.emailWorld, businessResult := .ok { success := true },
          http := fun _ => PyResult.ok 200 }
        "/tmp/mvp" "railway" (some "shop.example.com")).1.app_url = okPlatformResult.url := by
  have h := C7_domain_three_step_degraded godaddyCreds 1700000000 okRepoResult
    { success := true } true okPlatformResult availFailDw
    { success := true } { success := true } { success := true }
    happyWorld.emailWorld (fun _ => PyResult.ok 200) "/tmp/mvp" "railway"
    "shop.example.com" rfl rfl rfl (by decide) rfl (by decide)
  exact ⟨rfl, h.2.2.2.1, h.2.2.2.2.1⟩

/-- Claim C8, code-bug evidence at a concrete input: a fully successful
push run makes the workspace `/tmp/deploy_1700000000`, performs no
`rmtree` cleanup of it on exit, and a second call within the same clock
second computes the very same workspace path, so the workspace is neither
collision-free nor cleaned up; the working directory itself is restored. -/
theorem C8_push_workspace_no_cleanup :
    (push_mvp_files 1700000000
        { cloneOk := true, copyOk := true, addOk := true, commitOk := true,
          pushOk := true, originalCwd := "/root", items := ["main.py", "requirements.txt"] }
        "/tmp/mvp_a" "https://github.com/acme/app.git").1.success = true ∧
    ((push_mvp_files 1700000000
        { cloneOk := true, copyOk := true, addOk := true, commitOk := true,
          pushOk := true, originalCwd := "/root", items := ["main.py", "requirements.txt"] }
        "/tmp/mvp_a" "https://github.com/acme/app.git").2.1.all fun e =>
      match e with
      | FsEffect.rmtree _ => false
      | _ => true) = true ∧
    FsEffect.makedirs (temp_dir_name 1700000000) ∈
      (push_mvp_files 1700000000
        { cloneOk := true, copyOk := true, addOk := true, commitOk := true,
          pushOk := true, originalCwd := "/root", items := ["main.py", "requirements.txt"] }
        "/tmp/mvp_a" "https://github.com/acme/app.git").2.1 ∧
    FsEffect.makedirs (temp_dir_name 1700000000) ∈
      (push_mvp_files 1700000000
        { cloneOk := true, copyOk := true, addOk := true, commitOk := true,
          pushOk := true, originalCwd := "/root", items := ["main.py", "requirements.txt"] }
        "/tmp/mvp_b" "https://github.com/acme/other.git").2.1 ∧
    (push_mvp_files 1700000000
        { cloneOk := true, copyOk := true, addOk := true, commitOk := true,
          pushOk := true, originalCwd := "/root", items := ["main.py", "requirements.txt"] }
        "/tmp/mvp_a" "https://github.com/acme/app.git").2.2 = "/root" := by
  decide

/-- Claim C9: the e-mail configurator attempts exactly the one backend
selected deterministically by the fixed priority order Mailchimp,
SendGrid, Mailgun over the credentials that are present; it never
attempts a second backend, and with no e-mail credential it fails without
attempting any backend. -/
theorem C9_email_single_backend (c : Credentials) (ew : EmailWorld)
    (appUrl repoName : String) :
    (setup_notifications c ew appUrl repoName).2 =
      (if truthy c.MAILCHIMP_API_KEY then [Effect.mailchimpCampaign appUrl repoName]
       else if truthy c.SENDGRID_API_KEY then [Effect.sendgridTemplate appUrl repoName]
       else if truthy c.MAILGUN_API_KEY then [Effect.mailgunStats appUrl repoName]
       else []) ∧
    (setup_notifications c ew appUrl repoName).2.length ≤ 1 ∧
    (truthy c.MAILCHIMP_API_KEY = false → truthy c.SENDGRID_API_KEY = false →
     truthy c.MAILGUN_API_KEY = false →
     (setup_notifications c ew appUrl repoName).1 =
       { success := false, error := "No email service credentials available" }) := by
  cases h1 : truthy c.MAILCHIMP_API_KEY <;>
    cases h2 : truthy c.SENDGRID_API_KEY <;>
    cases h3 : truthy c.MAILGUN_API_KEY <;>
    simp [setup_notifications, setup_mailchimp_notifications,
          setup_sendgrid_notifications, setup_mailgun_notifications, h1, h2, h3]

/-- Witness for C9 at a concrete input: with no e-mail credential at most
one backend is attempted. -/
theorem C9_email_single_backend_witness :
    (setup_notifications railwayCreds happyWorld.emailWorld
      "https://app.up.railway.app" "ai-content-optimizer-1700000000").2.length ≤ 1 :=
  (C9_email_single_backend railwayCreds happyWorld.emailWorld
    "https://app.up.railway.app" "ai-content-optimizer-1700000000").2.1

/-- Claim C10: when a custom domain is requested and the domain
configurator succeeds, `app_url` becomes `https://` + domain and every
subsequent step — monitoring, e-mail, business operations and both
verification probes — receives that custom URL instead of the platform
URL, as the effect trace shows. -/
theorem C10_custom_domain_url_propagation (c : Credentials) (now : Nat)
    (r : RepoResult) (p : OpResult) (envOk : Bool) (d : PlatformResult) (dw : DomainWorld)
    (mres cres bres : OpResult) (ew : EmailWorld) (http : String → PyResult Nat)
    (mvpPath platform domain : String)
    (hr : r.success = true) (hp : p.success = true) (hd : d.success = true)
    (hplat : platform ∈ platformIds c)
    (hdom : (setup_domain c dw domain d.url).1.success = true) :
    (deploy_mvp c { now := now, repoResult := .ok r, pushResult := .ok p,
                    envResult := .ok envOk, deployResult := .ok d, domainWorld := dw,
                    monitoringResult := .ok mres, cicdResult := .ok cres,
                    emailWorld := ew, businessResult := .ok bres, http := http }
        mvpPath platform (some domain)).1.success = true ∧
    (deploy_mvp c { now := now, repoResult := .ok r, pushResult := .ok p,
                    envResult := .ok envOk, deployResult := .ok d, domainWorld := dw,
                    monitoringResult := .ok mres, cicdResult := .ok cres,
                    emailWorld := ew, businessResult := .ok bres, http := http }
        mvpPath platform (some domain)).1.app_url = "https://" ++ domain ∧
    (deploy_mvp c { now := now, repoResult := .ok r, pushResult := .ok p,
                    envResult := .ok envOk, deployResult := .ok d, domainWorld := dw,
                    monitoringResult := .ok mres, cicdResult := .ok cres,
                    emailWorld := ew, businessResult := .ok bres, http := http }
        mvpPath platform (some domain)).2 =
      [Effect.createRepo ("ai-content-optimizer-" ++ toString now),
       Effect.pushSource mvpPath r.clone_url,
       Effect.injectSecrets ("ai-content-optimizer-" ++ toString now),
       Effect.provision platform r.repo_url] ++
      (setup_domain c dw domain d.url).2 ++
      [Effect.setupMonitoring ("https://" ++ domain) ("ai-content-optimizer-" ++ toString now),
       Effect.setupCICD ("ai-content-optimizer-" ++ toString now) platform,
       Effect.setupEmail ("https://" ++ domain) ("ai-content-optimizer-" ++ toString now)] ++
      (setup_notifications c ew ("https://" ++ domain)
        ("ai-content-optimizer-" ++ toString now)).2 ++
      [Effect.setupBusinessOps ("https://" ++ domain) ("ai-content-optimizer-" ++ toString now)] ++
      (verify_deployment http ("https://" ++ domain)).2 ∧
    (∀ e ∈ (verify_deployment http ("https://" ++ domain)).2,
       e = Effect.httpGet ("https://" ++ domain ++ "/api/health") 30 ∨
       e = Effect.httpGet ("https://" ++ domain) 30) := by
  refine ⟨?_, ?_, ?_, ?_⟩
  · simp [deploy_mvp, deploy_body, hr, hp, hd, hplat, hdom]
  · simp [deploy_mvp, deploy_body, hr, hp, hd, hplat, hdom]
  · simp [deploy_mvp, deploy_body, hr, hp, hd, hplat, hdom]
  · intro e he
    cases h1 : http (("https://" ++ domain) ++ "/api/health") with
    | exn m =>
      simp [verify_deployment, h1] at he
      exact Or.inl he
    | ok n =>
      cases h2 : http ("https://" ++ domain) with
      | exn m =>
        simp [verify_deployment, h1, h2] at he
        exact he
      | ok k =>
        simp [verify_deployment, h1, h2] at he
        exact he

/-- Witness for C10 at a concrete input: the domain is reported
unavailable for purchase but already owned, so registration is skipped and
DNS configuration succeeds; the result URL is the custom domain. -/
theorem C10_custom_domain_url_propagation_witness :
    (setup_domain godaddyCreds happyWorld.domainWorld "shop.example.com"
      okPlatformResult.url).1.success = true ∧
    (deploy_mvp godaddyCreds
        { now := 1700000000, repoResult := .ok okRepoResult,
          pushResult := .ok { success := true }, envResult := .ok true,
          deployResult := .ok okPlatformResult, domainWorld := happyWorld.domainWorld,
          monitoringResult := .ok { success := true }, cicdResult := .ok { success := true },
          emailWorld := happyWorld.emailWorld, businessResult := .ok { success := true },
          http := fun _ => PyResult.ok 200 }
        "/tmp/mvp" "railway" (some "shop.example.com")).1.success = true ∧
    (deploy_mvp godaddyCreds
        { now := 1700000000, repoResult := .ok okRepoResult,
          pushResult := .ok { success := true }, envResult := .ok true,
          deployResult := .ok okPlatformResult, domainWorld := happyWorld.domainWorld,
          monitoringResult := .ok { success := true }, cicdResult := .ok { success := true },
          emailWorld := happyWorld.emailWorld, businessResult := .ok { success := true },
          http := fun _ => PyResult.ok 200 }
        "/tmp/mvp" "railway" (some "shop.example.com")).1.app_url =
      "https://" ++ "shop.example.com" := by
  have h := C10_custom_domain_url_propagation godaddyCreds 1700000000 okRepoResult
    { success := true } true okPlatformResult happyWorld.domainWorld
    { success := true } { success := true } { success := true }
    happyWorld.emailWorld (fun _ => PyResult.ok 200) "/tmp/mvp" "railway"
    "shop.example.com" rfl rfl rfl (by decide) (by decide)
  exact ⟨by decide, h.1, h.2.1⟩
